import Mathlib

/-!
Shallow embedding of `translate_v1.py` from the nucleotide-to-protein
translator repository, together with proofs checking the specification
claims against the code.

Python strings are modelled as `List Char`; a raised `ValueError` is
modelled as the error branch of `Except` carrying the exception type name
and the message text.
-/

/-- Model of a raised Python exception: the exception class name together
with the message string passed to its constructor. -/
structure PyException where
  excType : String
  message : String
deriving DecidableEq, Repr

/-- Model of `str.upper()` restricted to the ASCII inputs the program
deals with: each character is uppercased independently. -/
def upper (s : List Char) : List Char := s.map Char.toUpper

/-- Model of `str.lower()` on ASCII text, used for the message-substring
part of the external contract. -/
def lower (s : List Char) : List Char := s.map Char.toLower

/-- Model of `NucleotideTranslator.CODON_TABLE` (src/translate_v1.py lines
37-60), in source order.  The three entries `CCC`, `CCG`, `CCT` are
commented out in the source (line 44), so the dictionary holds 61 keys. -/
def CODON_TABLE : List (String × Char) :=
  [("ATA", 'I'), ("ATC", 'I'), ("ATT", 'I'), ("ATG", 'M'),
   ("ACA", 'T'), ("ACC", 'T'), ("ACG", 'T'), ("ACT", 'T'),
   ("AAC", 'N'), ("AAT", 'N'),
   ("AAA", 'K'), ("AAG", 'K'),
   ("AGC", 'S'), ("AGT", 'S'), ("AGA", 'R'), ("AGG", 'R'),
   ("CTA", 'L'), ("CTC", 'L'), ("CTG", 'L'), ("CTT", 'L'),
   ("CCA", 'P'),
   ("CAC", 'H'), ("CAT", 'H'),
   ("CAA", 'Q'), ("CAG", 'Q'),
   ("CGA", 'R'), ("CGC", 'R'), ("CGG", 'R'), ("CGT", 'R'),
   ("GTA", 'V'), ("GTC", 'V'), ("GTG", 'V'), ("GTT", 'V'),
   ("GCA", 'A'), ("GCC", 'A'), ("GCG", 'A'), ("GCT", 'A'),
   ("GAC", 'D'), ("GAT", 'D'),
   ("GAA", 'E'), ("GAG", 'E'),
   ("GGA", 'G'), ("GGC", 'G'), ("GGG", 'G'), ("GGT", 'G'),
   ("TCA", 'S'), ("TCC", 'S'), ("TCG", 'S'), ("TCT", 'S'),
   ("TTC", 'F'), ("TTT", 'F'),
   ("TTA", 'L'), ("TTG", 'L'),
   ("TAC", 'Y'), ("TAT", 'Y'),
   ("TAA", '*'), ("TAG", '*'), ("TGA", '*'),
   ("TGC", 'C'), ("TGT", 'C'),
   ("TGG", 'W')]

/-- Model of `self.CODON_TABLE.get(codon, 'X')` (src/translate_v1.py
line 110): dictionary lookup with fallback `X` on a missing key. -/
def codonSymbol (codon : List Char) : Char :=
  (CODON_TABLE.lookup (String.mk codon)).getD 'X'

/-- The error raised at src/translate_v1.py line 75 for an empty sequence. -/
def emptySeqError : PyException :=
  ⟨"ValueError", "Sequence is empty. Please provide a DNA sequence."⟩

/-- The error raised at src/translate_v1.py line 89 for a length that is
not a multiple of 3. -/
def invalidLengthError : PyException :=
  ⟨"ValueError", "Sequence length must be divisible by 3."⟩

/-- The error raised at src/translate_v1.py line 93 for a character
outside A, T, C, G. -/
def invalidCharError : PyException :=
  ⟨"ValueError", "Sequence contains invalid characters (only A, T, C, G are allowed)."⟩

/-- Model of `NucleotideTranslator.validate` (src/translate_v1.py lines
71-93), operating on the already-uppercased stored sequence: empty check
first, then length modulo 3, then the alphabet check
`any(base not in "ATCG" for base in self.sequence)`. -/
def validate (sequence : List Char) : Except PyException Unit :=
  if sequence.isEmpty then
    Except.error emptySeqError
  else if sequence.length % 3 ≠ 0 then
    Except.error invalidLengthError
  else if sequence.any (fun base => !(("ATCG".toList).contains base)) then
    Except.error invalidCharError
  else
    Except.ok ()

/-- Model of the translation loop of `NucleotideTranslator.translate`
(src/translate_v1.py lines 107-110): `for i in range(0, len, 3)` with
`codon = self.sequence[i:i+3]`; a trailing window of fewer than three
characters is still looked up (and, the keys all having length 3, falls
back to `X`). -/
def translateLoop : List Char → List Char
  | [] => []
  | [a] => [codonSymbol [a]]
  | [a, b] => [codonSymbol [a, b]]
  | a :: b :: c :: t => codonSymbol [a, b, c] :: translateLoop t

/-- Model of constructing `NucleotideTranslator(sequence)` (which stores
`sequence.upper()`, src/translate_v1.py line 69) and calling
`.translate()` (lines 95-112): validate the stored sequence, then build
the protein codon by codon. -/
def NucleotideTranslator.translate (sequence : List Char) : Except PyException (List Char) :=
  let s := upper sequence
  match validate s with
  | Except.error e => Except.error e
  | Except.ok _ => Except.ok (translateLoop s)

/-- Observable outcome of one CLI invocation of the script. -/
structure CLIResult where
  exitCode : Nat
  stdout : String
  stderr : String
deriving DecidableEq, Repr

/-- Model of `main` (src/translate_v1.py lines 117-154) once argparse has
accepted `--seq seq`.  In the source the `print("Protein:", protein)`
call and the whole try/except block are commented out (lines 139-151), so
on success nothing is written to stdout and the interpreter exits 0; on a
ValueError the exception propagates uncaught, the interpreter prints a
traceback ending in `<type>: <message>` to stderr and exits 1. -/
def main_run (seq : String) : CLIResult :=
  match NucleotideTranslator.translate seq.toList with
  | Except.ok _ => ⟨0, "", ""⟩
  | Except.error e =>
      ⟨1, "", "Traceback (most recent call last):\n" ++ e.excType ++ ": " ++ e.message⟩

/-- `startsWithChars needle hay` holds when `needle` is an initial
segment of `hay`. -/
def startsWithChars : List Char → List Char → Bool
  | [], _ => true
  | _ :: _, [] => false
  | a :: as, b :: bs => a == b && startsWithChars as bs

/-- `containsSub needle hay` holds when `needle` occurs as a contiguous
substring of `hay`; used to state the message-substring contract. -/
def containsSub (needle : List Char) : List Char → Bool
  | [] => needle.isEmpty
  | b :: bs => startsWithChars needle (b :: bs) || containsSub needle bs

/-- Unfolding `validate` on a successful run: the sequence is non-empty,
its length is a multiple of 3, and every character is one of A, T, C, G. -/
theorem validate_ok_elim (s : List Char) (h : validate s = Except.ok ()) :
    s ≠ [] ∧ s.length % 3 = 0 ∧ ∀ c ∈ s, (("ATCG".toList).contains c) = true := by
  unfold validate at h
  split_ifs at h with h1 h2 h3
  refine ⟨by simpa [List.isEmpty_iff] using h1, by omega, ?_⟩
  intro c hc
  by_contra hbad
  exact h3 (List.any_eq_true.mpr ⟨c, hc, by simpa using hbad⟩)

/-- Conversely, when the three checks pass, `validate` succeeds. -/
theorem validate_ok_intro (s : List Char) (h1 : s ≠ []) (h2 : s.length % 3 = 0)
    (h3 : s.any (fun base => !(("ATCG".toList).contains base)) = false) :
    validate s = Except.ok () := by
  unfold validate
  split_ifs with g1 g2 g3
  · exact absurd (List.isEmpty_iff.mp g1) h1
  · exact absurd g2 (by omega)
  · rw [h3] at g3
    simp at g3
  · rfl

/-- Uppercasing fixes every character of the DNA alphabet. -/
theorem toUpper_fixed_of_base (c : Char) (h : (("ATCG".toList).contains c) = true) :
    Char.toUpper c = c := by
  have h' : c ∈ ['A', 'T', 'C', 'G'] := by simpa using h
  fin_cases h' <;> rfl

/-- A sequence accepted by `validate` is already uppercase, so a second
normalisation is the identity on it. -/
theorem upper_fixed_of_validate_ok (s : List Char) (h : validate s = Except.ok ()) :
    upper s = s := by
  obtain ⟨-, -, hmem⟩ := validate_ok_elim s h
  unfold upper
  calc s.map Char.toUpper = s.map id :=
        List.map_congr_left (fun c hc => toUpper_fixed_of_base c (hmem c hc))
    _ = s := List.map_id s

/-- The loop of `translate` computes, codon by codon, the same string as
the index-based partition of the input into 3-character windows. -/
theorem translateLoop_eq_partition : ∀ t : List Char, t.length % 3 = 0 →
    translateLoop t = (List.range (t.length / 3)).map
      (fun i => codonSymbol (List.take 3 (List.drop (3 * i) t)))
  | [], _ => rfl
  | [_], h => by simp at h
  | [_, _], h => by simp at h
  | a :: b :: c :: t, h => by
      have h3 : (a :: b :: c :: t).length = t.length + 3 := by simp
      have h' : t.length % 3 = 0 := by omega
      have hdiv : (a :: b :: c :: t).length / 3 = t.length / 3 + 1 := by
        rw [h3]; omega
      have ih := translateLoop_eq_partition t h'
      rw [translateLoop, ih, hdiv, List.range_succ_eq_map, List.map_cons, List.map_map]
      refine congrArg₂ _ rfl (List.map_congr_left ?_)
      intro i _
      have hstep : 3 * (i + 1) = (3 * i) + 1 + 1 + 1 := by ring
      simp [Function.comp, hstep, List.drop_succ_cons]

/-- The loop produces one symbol per codon: its output length is a third
of the input length when the input length is a multiple of 3. -/
theorem translateLoop_length (t : List Char) (h : t.length % 3 = 0) :
    (translateLoop t).length = t.length / 3 := by
  rw [translateLoop_eq_partition t h]
  simp

/-- When the stored sequence validates, `translate` returns the protein
built by the loop. -/
theorem translate_ok_of_validate_ok (s : List Char)
    (h : validate (upper s) = Except.ok ()) :
    NucleotideTranslator.translate s = Except.ok (translateLoop (upper s)) := by
  simp only [NucleotideTranslator.translate, h]

/-- Claim C1: the spec says the codon table holds all 64 codons over
{A,T,C,G} so that `translate` never emits the fallback symbol X on a
valid input.  The code does not satisfy this: the three Proline entries
are commented out, leaving 61 keys, and the fully valid sequence
CCCCCGCCT translates to XXX.  This theorem records the code behaviour at
that failing input. -/
theorem codon_table_incomplete_X_reachable :
    CODON_TABLE.length = 61 ∧
    CODON_TABLE.lookup "CCC" = none ∧
    CODON_TABLE.lookup "CCG" = none ∧
    CODON_TABLE.lookup "CCT" = none ∧
    NucleotideTranslator.translate "CCCCCGCCT".toList = Except.ok "XXX".toList :=
  ⟨rfl, rfl, rfl, rfl, rfl⟩

/-- Claim C2: the spec says a CLI run with a valid `--seq` exits 0 with
the protein on stdout.  In the source the `print` call is commented out,
so the process exits 0 but stdout is empty: running with
`--seq ATGGCGTAA` yields exit code 0, empty stdout and empty stderr, even
though the core translation does produce MA*.  This theorem records that
code behaviour at the failing input. -/
theorem main_silent_on_success :
    main_run "ATGGCGTAA" = ⟨0, "", ""⟩ ∧
    NucleotideTranslator.translate "ATGGCGTAA".toList = Except.ok "MA*".toList ∧
    containsSub "MA*".toList ((main_run "ATGGCGTAA").stdout.toList) = false :=
  ⟨rfl, rfl, rfl⟩

/-- Claim C3: for every sequence that passes validation, `translate`
returns exactly the concatenation, in order, of the per-codon symbols of
the 3-character windows of the uppercased input starting at index 0, and
its length is the input length divided by 3. -/
theorem translate_is_codonwise_partition (s : List Char)
    (h : validate (upper s) = Except.ok ()) :
    NucleotideTranslator.translate s =
      Except.ok ((List.range (s.length / 3)).map
        (fun i => codonSymbol (List.take 3 (List.drop (3 * i) (upper s))))) ∧
    ∃ p, NucleotideTranslator.translate s = Except.ok p ∧
      p.length = s.length / 3 := by
  obtain ⟨-, hlen, -⟩ := validate_ok_elim _ h
  have hus : (upper s).length = s.length := List.length_map s Char.toUpper
  have hok := translate_ok_of_validate_ok s h
  constructor
  · rw [hok, translateLoop_eq_partition (upper s) hlen, hus]
  · exact ⟨translateLoop (upper s), hok, by rw [translateLoop_length (upper s) hlen, hus]⟩

/-- Witness for C3 at the concrete valid input ATGGCGTAA. -/
theorem translate_is_codonwise_partition_witness :
    NucleotideTranslator.translate "ATGGCGTAA".toList =
      Except.ok ((List.range ("ATGGCGTAA".toList.length / 3)).map
        (fun i => codonSymbol (List.take 3 (List.drop (3 * i) (upper "ATGGCGTAA".toList))))) ∧
    ∃ p, NucleotideTranslator.translate "ATGGCGTAA".toList = Except.ok p ∧
      p.length = "ATGGCGTAA".toList.length / 3 :=
  translate_is_codonwise_partition "ATGGCGTAA".toList (by rfl)

/-- When validation of the stored sequence raises, `translate` propagates
exactly that exception. -/
theorem translate_error_of_validate_error (s : List Char) (e : PyException)
    (h : validate (upper s) = Except.error e) :
    NucleotideTranslator.translate s = Except.error e := by
  simp only [NucleotideTranslator.translate, h]

/-- Unfolding `validate` on each failing input shape. -/
theorem validate_error_cases (s : List Char) :
    (s = [] → validate s = Except.error emptySeqError) ∧
    (s ≠ [] → s.length % 3 ≠ 0 → validate s = Except.error invalidLengthError) ∧
    (s ≠ [] → s.length % 3 = 0 →
      s.any (fun base => !(("ATCG".toList).contains base)) = true →
      validate s = Except.error invalidCharError) := by
  refine ⟨?_, ?_, ?_⟩
  · intro h
    subst h
    rfl
  · intro h1 h2
    unfold validate
    rw [if_neg (by simpa [List.isEmpty_iff] using h1), if_pos h2]
  · intro h1 h2 h3
    unfold validate
    rw [if_neg (by simpa [List.isEmpty_iff] using h1), if_neg (by omega), if_pos h3]

/-- Claim C4: `translate` fails exactly when the uppercased input is
empty, has length not divisible by 3, or contains a character outside
{A,T,C,G}; each failure carries the corresponding fixed error, the
length and character messages contain (lowercased) the contractual
substrings, and every other input yields a protein with no error. -/
theorem translate_error_characterisation (s : List Char) :
    (upper s = [] → NucleotideTranslator.translate s = Except.error emptySeqError) ∧
    (upper s ≠ [] → (upper s).length % 3 ≠ 0 →
      NucleotideTranslator.translate s = Except.error invalidLengthError) ∧
    (upper s ≠ [] → (upper s).length % 3 = 0 →
      (upper s).any (fun base => !(("ATCG".toList).contains base)) = true →
      NucleotideTranslator.translate s = Except.error invalidCharError) ∧
    (upper s ≠ [] → (upper s).length % 3 = 0 →
      (upper s).any (fun base => !(("ATCG".toList).contains base)) = false →
      NucleotideTranslator.translate s = Except.ok (translateLoop (upper s))) ∧
    containsSub "length must be divisible by 3".toList
      (lower invalidLengthError.message.toList) = true ∧
    containsSub "invalid characters".toList
      (lower invalidCharError.message.toList) = true := by
  obtain ⟨c1, c2, c3⟩ := validate_error_cases (upper s)
  refine ⟨?_, ?_, ?_, ?_, by decide, by decide⟩
  · intro h
    exact translate_error_of_validate_error s _ (c1 h)
  · intro h1 h2
    exact translate_error_of_validate_error s _ (c2 h1 h2)
  · intro h1 h2 h3
    exact translate_error_of_validate_error s _ (c3 h1 h2 h3)
  · intro h1 h2 h3
    exact translate_ok_of_validate_ok s (validate_ok_intro _ h1 h2 h3)

/-- Witness for C4: one concrete input per branch of the
characterisation. -/
theorem translate_error_characterisation_witness :
    NucleotideTranslator.translate "".toList = Except.error emptySeqError ∧
    NucleotideTranslator.translate "ATGGCCG".toList = Except.error invalidLengthError ∧
    NucleotideTranslator.translate "ATGBCC".toList = Except.error invalidCharError ∧
    NucleotideTranslator.translate "ATGGCG".toList =
      Except.ok (translateLoop (upper "ATGGCG".toList)) :=
  ⟨(translate_error_characterisation "".toList).1 rfl,
   (translate_error_characterisation "ATGGCCG".toList).2.1 (by decide) (by decide),
   (translate_error_characterisation "ATGBCC".toList).2.2.1 (by decide) (by decide) (by decide),
   (translate_error_characterisation "ATGGCG".toList).2.2.2.1 (by decide) (by decide) (by decide)⟩

/-- Claim C5 counterexample: the sequence AGGGGGGGGGGGGGG has length 15,
which IS divisible by 3, so far from failing the length check it
translates successfully to RGGGG. -/
theorem length15_sequence_translates :
    "AGGGGGGGGGGGGGG".toList.length = 15 ∧
    "AGGGGGGGGGGGGGG".toList.length % 3 = 0 ∧
    NucleotideTranslator.translate "AGGGGGGGGGGGGGG".toList = Except.ok "RGGGG".toList ∧
    NucleotideTranslator.translate "AGGGGGGGGGGGGGG".toList ≠ Except.error invalidLengthError := by
  refine ⟨rfl, rfl, rfl, ?_⟩
  intro hcontra
  rw [show NucleotideTranslator.translate "AGGGGGGGGGGGGGG".toList
        = Except.ok "RGGGG".toList from rfl] at hcontra
  exact Except.noConfusion hcontra

/-- Claim C5 as amended: AGGGGGGGGGGGGGG (length 15, all valid
characters) is accepted, since 15 is a multiple of 3, and translates to
RGGGG; an all-valid-alphabet sequence whose length is genuinely not a
multiple of 3, such as the length-16 AGGGGGGGGGGGGGGG, does fail with
the invalid-length error. -/
theorem length15_succeeds_length16_fails :
    NucleotideTranslator.translate "AGGGGGGGGGGGGGG".toList = Except.ok "RGGGG".toList ∧
    "AGGGGGGGGGGGGGGG".toList.length = 16 ∧
    NucleotideTranslator.translate "AGGGGGGGGGGGGGGG".toList = Except.error invalidLengthError :=
  ⟨rfl, rfl, rfl⟩

/-- Claim C6: the empty input reports the empty-sequence error, and any
non-empty input whose length is not a multiple of 3 reports the
invalid-length error even when it also contains a character outside
{A,T,C,G} after normalisation, never the invalid-character error. -/
theorem validation_check_order (s : List Char) :
    NucleotideTranslator.translate [] = Except.error emptySeqError ∧
    (upper s ≠ [] → (upper s).length % 3 ≠ 0 →
      (upper s).any (fun base => !(("ATCG".toList).contains base)) = true →
      NucleotideTranslator.translate s = Except.error invalidLengthError ∧
      NucleotideTranslator.translate s ≠ Except.error invalidCharError) := by
  refine ⟨rfl, ?_⟩
  intro h1 h2 _
  have hl := translate_error_of_validate_error s _
    ((validate_error_cases (upper s)).2.1 h1 h2)
  refine ⟨hl, ?_⟩
  rw [hl]
  intro hcon
  exact absurd (Except.error.inj hcon) (by decide)

/-- Witness for C6 at the length-7 input ATGBCCG, which also contains
the invalid character B. -/
theorem validation_check_order_witness :
    NucleotideTranslator.translate [] = Except.error emptySeqError ∧
    (NucleotideTranslator.translate "ATGBCCG".toList = Except.error invalidLengthError ∧
     NucleotideTranslator.translate "ATGBCCG".toList ≠ Except.error invalidCharError) :=
  ⟨(validation_check_order "ATGBCCG".toList).1,
   (validation_check_order "ATGBCCG".toList).2 (by decide) (by decide) (by decide)⟩

/-- Claim C7: the worked examples of the spec hold on the code: the
39-base example translates to MAIVMGR*KGAR* and each stop codon alone
translates to the stop symbol. -/
theorem spec_worked_examples :
    NucleotideTranslator.translate "ATGGCCATTGTAATGGGCCGCTGAAAGGGTGCCCGATAG".toList
      = Except.ok "MAIVMGR*KGAR*".toList ∧
    NucleotideTranslator.translate "TAA".toList = Except.ok "*".toList ∧
    NucleotideTranslator.translate "TAG".toList = Except.ok "*".toList ∧
    NucleotideTranslator.translate "TGA".toList = Except.ok "*".toList :=
  ⟨rfl, rfl, rfl, rfl⟩

/-- Claim C8: normalisation to uppercase happens before validation and
lookup, so a valid sequence translates identically to its uppercased
form; in particular lowercase atggcc gives MA. -/
theorem translate_case_insensitive (s : List Char)
    (h : validate (upper s) = Except.ok ()) :
    NucleotideTranslator.translate s = NucleotideTranslator.translate (upper s) ∧
    NucleotideTranslator.translate "atggcc".toList = Except.ok "MA".toList := by
  refine ⟨?_, rfl⟩
  have hfix : upper (upper s) = upper s := upper_fixed_of_validate_ok (upper s) h
  have h2 : validate (upper (upper s)) = Except.ok () := by rw [hfix]; exact h
  rw [translate_ok_of_validate_ok s h, translate_ok_of_validate_ok (upper s) h2, hfix]

/-- Witness for C8 at the lowercase input atggcc. -/
theorem translate_case_insensitive_witness :
    NucleotideTranslator.translate "atggcc".toList
      = NucleotideTranslator.translate (upper "atggcc".toList) ∧
    NucleotideTranslator.translate "atggcc".toList = Except.ok "MA".toList :=
  translate_case_insensitive "atggcc".toList rfl

/-- Claim C9: the table as written omits the three Proline codons CCC,
CCG and CCT (61 entries rather than 64), so the X fallback is reachable
from the fully valid input CCCCCGCCT, while the remaining Proline codon
CCA still maps to P. -/
theorem proline_codons_omitted :
    CODON_TABLE.length = 61 ∧
    CODON_TABLE.lookup "CCC" = none ∧
    CODON_TABLE.lookup "CCG" = none ∧
    CODON_TABLE.lookup "CCT" = none ∧
    CODON_TABLE.lookup "CCA" = some 'P' ∧
    NucleotideTranslator.translate "CCCCCGCCT".toList = Except.ok "XXX".toList ∧
    NucleotideTranslator.translate "CCA".toList = Except.ok "P".toList :=
  ⟨rfl, rfl, rfl, rfl, rfl, rfl, rfl⟩

/-- Any exception coming out of `validate` is one of the three fixed
errors. -/
theorem validate_error_mem (s : List Char) (e : PyException)
    (h : validate s = Except.error e) :
    e = emptySeqError ∨ e = invalidLengthError ∨ e = invalidCharError := by
  unfold validate at h
  split_ifs at h
  · exact Or.inl (Except.error.inj h).symm
  · exact Or.inr (Or.inl (Except.error.inj h).symm)
  · exact Or.inr (Or.inr (Except.error.inj h).symm)

/-- Claim C10: every validation failure is raised with the same
exception type ValueError; the three error kinds share that type and are
told apart only by their pairwise distinct message texts. -/
theorem validation_errors_single_type (s : List Char) (e : PyException)
    (h : NucleotideTranslator.translate s = Except.error e) :
    e.excType = "ValueError" ∧
    (e = emptySeqError ∨ e = invalidLengthError ∨ e = invalidCharError) ∧
    emptySeqError.excType = invalidLengthError.excType ∧
    invalidLengthError.excType = invalidCharError.excType ∧
    emptySeqError.message ≠ invalidLengthError.message ∧
    emptySeqError.message ≠ invalidCharError.message ∧
    invalidLengthError.message ≠ invalidCharError.message := by
  have he : e = emptySeqError ∨ e = invalidLengthError ∨ e = invalidCharError := by
    cases hv : validate (upper s) with
    | error e2 =>
        have h2 := translate_error_of_validate_error s e2 hv
        rw [h2] at h
        have h3 : e2 = e := Except.error.inj h
        subst h3
        exact validate_error_mem (upper s) e2 hv
    | ok u =>
        cases u
        have h2 := translate_ok_of_validate_ok s hv
        rw [h2] at h
        exact Except.noConfusion h
  refine ⟨?_, he, rfl, rfl, by decide, by decide, by decide⟩
  rcases he with h'|h'|h' <;> subst h' <;> rfl

/-- Witness for C10 at the empty input, whose failure is the
empty-sequence ValueError. -/
theorem validation_errors_single_type_witness :
    emptySeqError.excType = "ValueError" ∧
    (emptySeqError = emptySeqError ∨ emptySeqError = invalidLengthError ∨
      emptySeqError = invalidCharError) ∧
    emptySeqError.excType = invalidLengthError.excType ∧
    invalidLengthError.excType = invalidCharError.excType ∧
    emptySeqError.message ≠ invalidLengthError.message ∧
    emptySeqError.message ≠ invalidCharError.message ∧
    invalidLengthError.message ≠ invalidCharError.message :=
  validation_errors_single_type "".toList emptySeqError rfl
